import Mathlib

/-!
Verification of the IoT temperature-device simulator (`iot_device.py`) and its
companion webhook receiver (`test_server.py`).

The Python code is shallowly embedded: each attempt's transport-level result is
an `AttemptOutcome`; the retry loop in `IoTDevice.send_data` becomes a
structurally recursive function returning the delivery outcome together with the
observable effects (number of outbound calls, list of retry-delay sleeps); the
supervisor loop in `IoTDevice.run` becomes a step function on an explicit state
driven by a list of per-iteration events; the Flask `webhook` handler becomes a
pure function from a parsed JSON body to a response status plus the record
appended to the in-memory store (if any).
-/

namespace IoT

/-- Transport-level result of one POST attempt inside `send_data`, as the
Python code distinguishes them by exception class: a completed HTTP response
carrying a status code, `requests.exceptions.ConnectionError`,
`requests.exceptions.Timeout`, any other `requests.exceptions.RequestException`,
or any other `Exception`. -/
inductive AttemptOutcome
  | response (status : Nat)
  | connError
  | timeoutErr
  | otherReqErr
  | otherExc
deriving DecidableEq, Repr

/-- The three-valued delivery outcome of the spec's `DeliveryOutcome`:
`delivered` is the `return True` at the success path, `permanentFailure` is the
early `return False` inside the `HTTPError` handler (status < 500), and
`retryableFailure` is the `return False` after the attempt loop is exhausted. -/
inductive DeliveryOutcome
  | delivered
  | permanentFailure
  | retryableFailure
deriving DecidableEq, Repr

/-- How one attempt's result steers the loop in `send_data`. -/
inductive AttemptClass
  | deliver
  | permanent
  | retryable
deriving DecidableEq, Repr

/-- Classification of a single attempt, mirroring `send_data`'s body:
`response.raise_for_status()` raises `HTTPError` exactly when the status code
is in [400,600); a response that does not raise reaches `return True`.  The
`HTTPError` handler returns `False` immediately when `status_code < 500` (i.e.
the status is in [400,500)) and otherwise falls through to the retry sleep.
`ConnectionError`, `Timeout`, other `RequestException`s and other `Exception`s
are all caught, logged, and fall through to the retry sleep. -/
def attemptClass : AttemptOutcome → AttemptClass
  | .response s =>
      if 400 ≤ s ∧ s < 600 then
        if s < 500 then .permanent else .retryable
      else .deliver
  | .connError => .retryable
  | .timeoutErr => .retryable
  | .otherReqErr => .retryable
  | .otherExc => .retryable

/-- Observable result of a full `send_data` call: the delivery outcome, the
number of outbound POST calls issued, and the list of retry-delay sleeps
performed (each entry is the delay slept, always `retry_delay`). -/
structure SendResult where
  outcome : DeliveryOutcome
  calls : Nat
  sleeps : List ℚ
deriving DecidableEq, Repr

/-- The retry loop `for attempt in range(1, max_retries + 1)` of `send_data`,
recursing on the number of remaining attempts.  `attempt` is the 1-indexed
attempt number of the current iteration and `f attempt` its transport result.
The guard `if attempt < self.max_retries` before `time.sleep(self.retry_delay)`
corresponds to `remaining` being at least 2 on a retryable result. -/
def sendAux (f : Nat → AttemptOutcome) (retryDelay : ℚ) :
    Nat → Nat → SendResult
  | _, 0 => ⟨.retryableFailure, 0, []⟩
  | attempt, remaining + 1 =>
      match attemptClass (f attempt) with
      | .deliver => ⟨.delivered, 1, []⟩
      | .permanent => ⟨.permanentFailure, 1, []⟩
      | .retryable =>
          if remaining = 0 then ⟨.retryableFailure, 1, []⟩
          else
            let rest := sendAux f retryDelay (attempt + 1) remaining
            ⟨rest.outcome, rest.calls + 1, retryDelay :: rest.sleeps⟩

/-- `IoTDevice.send_data`: attempt delivery up to `maxRetries` times, sleeping
`retryDelay` between attempts. -/
def send_data (f : Nat → AttemptOutcome) (maxRetries : Nat) (retryDelay : ℚ) :
    SendResult :=
  sendAux f retryDelay 1 maxRetries

/-! ### Supervisor loop (`IoTDevice.run`) -/

/-- Failure threshold hardcoded in `run`: `max_consecutive_failures = 5`. -/
def max_consecutive_failures : Nat := 5

/-- Cooldown pause hardcoded in `run`: `time.sleep(30)` after the threshold. -/
def cooldown_seconds : Nat := 30

/-- Backoff hardcoded in `run`'s generic exception handler: `time.sleep(10)`. -/
def error_backoff_seconds : Nat := 10

/-- Externally observable actions of the supervisor loop. -/
inductive Action
  | sleepCooldown (secs : Nat)
  | sleepInterval (secs : Nat)
  | sleepBackoff (secs : Nat)
  | closeSession
deriving DecidableEq, Repr

/-- What one iteration of the `while True` body amounts to, from the loop's
point of view: `outcome ok` is a completed generate-and-send cycle returning
`ok` from `send_data`; `interrupted` is a `KeyboardInterrupt` raised during the
iteration; `exc` is any other exception raised during the iteration and caught
by the inner `except Exception`; `fatal` is an exception escaping the `while`
loop and caught by the outer `except Exception`. -/
inductive IterEvent
  | outcome (ok : Bool)
  | interrupted
  | exc
  | fatal
deriving DecidableEq, Repr

/-- Supervisor-loop state: the consecutive-failure counter owned by `run`, the
trace of observable actions so far, and whether the loop has exited (after
which `cleanup` has closed the session). -/
structure RunState where
  consecutive_failures : Nat
  trace : List Action
  stopped : Bool
deriving DecidableEq, Repr

/-- One iteration of `run`'s `while True` loop.  A completed cycle resets the
counter on success or increments it on failure; if the counter has reached
`max_consecutive_failures` the loop sleeps the 30-second cooldown, resets the
counter and `continue`s (skipping the interval sleep); otherwise it sleeps
`interval`.  A `KeyboardInterrupt` breaks out of the loop and the `finally`
block runs `cleanup`, which closes the session; an exception escaping the
loop is caught by the outer handler and likewise reaches `finally`/`cleanup`.
Any other exception inside the iteration is caught, a fixed 10-second backoff
is slept, and the loop continues with the counter untouched.  Once stopped,
no further iterations run. -/
def iterStep (interval : Nat) (s : RunState) (ev : IterEvent) : RunState :=
  if s.stopped then s
  else
    match ev with
    | .outcome ok =>
        let cf := if ok then 0 else s.consecutive_failures + 1
        if max_consecutive_failures ≤ cf then
          { consecutive_failures := 0,
            trace := s.trace ++ [.sleepCooldown cooldown_seconds],
            stopped := false }
        else
          { consecutive_failures := cf,
            trace := s.trace ++ [.sleepInterval interval],
            stopped := false }
    | .interrupted =>
        { s with trace := s.trace ++ [.closeSession], stopped := true }
    | .exc =>
        { s with trace := s.trace ++ [.sleepBackoff error_backoff_seconds] }
    | .fatal =>
        { s with trace := s.trace ++ [.closeSession], stopped := true }

/-- `IoTDevice.run`, driven by a finite list of iteration events, starting in
Running with `consecutive_failures = 0` and the session open. -/
def run (interval : Nat) (events : List IterEvent) : RunState :=
  events.foldl (iterStep interval) ⟨0, [], false⟩

/-! ### Reading generator (`IoTDevice.generate_temperature_data`)

Machine floats are modelled by rationals.  Python's builtin `round` rounds half
to even, embedded here as `rhe`. -/

/-- Round a rational to the nearest integer, ties to the even neighbour, as
Python's builtin `round` does. -/
def rhe (y : ℚ) : ℤ :=
  if y - ⌊y⌋ < 1/2 then ⌊y⌋
  else if 1/2 < y - ⌊y⌋ then ⌊y⌋ + 1
  else if ⌊y⌋ % 2 = 0 then ⌊y⌋ else ⌊y⌋ + 1

/-- `round(x, 2)`: round to 2 decimal digits. -/
def round2 (x : ℚ) : ℚ := (rhe (100 * x) : ℚ) / 100

/-- `random.uniform(a, b) = a + (b - a) * random()` with `random() = r`. -/
def uniform (a b r : ℚ) : ℚ := a + (b - a) * r

/-- The reading dictionary built by `generate_temperature_data`. -/
structure Reading where
  device_id : String
  temperature : ℚ
  unit : String
  timestamp : String
  metadata : List (String × String)
deriving DecidableEq, Repr

/-- `IoTDevice.generate_temperature_data`: draw `uniform(min_temp, max_temp)`,
round to 2 decimals, stamp the current time and the device id.  The random
draw `r` and the clock `now` are passed explicitly. -/
def generate_temperature_data (deviceId : String) (minT maxT : ℚ) (r : ℚ)
    (now : String) : Reading :=
  { device_id := deviceId,
    temperature := round2 (uniform minT maxT r),
    unit := "celsius",
    timestamp := now,
    metadata := [("sensor_type", "temperature"), ("location", "room_1"),
                 ("status", "active")] }

/-! ### Webhook receiver (`test_server.py`, handler `webhook`)

The handler is modelled after JSON parsing: its input is the Python value
returned by `request.get_json()`. -/

/-- A parsed JSON value.  Objects are association lists (Python dicts keep one
binding per key; assignment below is last-wins). -/
inductive Json
  | null
  | bool (b : Bool)
  | num (q : ℚ)
  | str (s : String)
  | arr (elems : List Json)
  | obj (fields : List (String × Json))
deriving Repr

/-- Python truthiness of a JSON value: `None`, `False`, `0`, `""`, `[]`, `{}`
are falsy, as tested by `if not data`. -/
def truthy : Json → Bool
  | .null => false
  | .bool b => b
  | .num q => q ≠ 0
  | .str s => s ≠ ""
  | .arr l => !l.isEmpty
  | .obj l => !l.isEmpty

/-- Python dict lookup `d[k]`, last binding wins. -/
def objGet (kvs : List (String × Json)) (k : String) : Option Json :=
  kvs.foldl (fun acc p => if p.1 = k then some p.2 else acc) none

/-- Is `pat` a contiguous substring of `s` (Python `str in str`)? -/
def hasSubstr (pat : List Char) : List Char → Bool
  | [] => pat.isEmpty
  | c :: tl => pat.isPrefixOf (c :: tl) || hasSubstr pat tl

/-- Python membership `k in data` for a string key: key lookup for dicts,
element equality for lists (only a string element can equal a string),
substring test for strings; for `None`, booleans and numbers, `in` raises
`TypeError` (`none`). -/
def pyContains (data : Json) (k : String) : Option Bool :=
  match data with
  | .obj kvs => some (objGet kvs k).isSome
  | .arr l => some (l.any fun v => match v with | .str s => s = k | _ => false)
  | .str s => some (hasSubstr k.toList s.toList)
  | .null => none
  | .bool _ => none
  | .num _ => none

/-- The comprehension `[field for field in required_fields if field not in
data]`: `none` when the membership test raises `TypeError` (propagating to the
outer `except Exception` handler), otherwise the list of missing fields. -/
def requiredMissing (data : Json) : List String → Option (List String)
  | [] => some []
  | f :: fs =>
      match pyContains data f, requiredMissing data fs with
      | some b, some l => some (if b then l else f :: l)
      | _, _ => none

/-- The whitespace set of Python's `str.isspace()`/`str.strip()` (CPython
3.11, Unicode 14.0): U+0009–U+000D, U+001C–U+0020, U+0085, U+00A0, U+1680,
U+2000–U+200A, U+2028, U+2029, U+202F, U+205F, U+3000. -/
def pyIsSpace (c : Char) : Bool :=
  let n := c.toNat
  decide ((9 ≤ n ∧ n ≤ 13) ∨ (28 ≤ n ∧ n ≤ 32) ∨ n = 0x85 ∨ n = 0xa0 ∨
    n = 0x1680 ∨ (0x2000 ≤ n ∧ n ≤ 0x200a) ∨ n = 0x2028 ∨ n = 0x2029 ∨
    n = 0x202f ∨ n = 0x205f ∨ n = 0x3000)

/-- Python `str.strip()`: drop leading and trailing Unicode whitespace. -/
def pyStripChars (l : List Char) : List Char :=
  ((l.dropWhile pyIsSpace).reverse.dropWhile pyIsSpace).reverse

/-- The codepoint ranges of Unicode category Nd (decimal digits), as in the
CPython 3.11 / Unicode 14.0 tables; `float()` accepts any of these wherever
an ASCII digit may appear (they are mapped to ASCII digits by CPython's
decimal-and-space transform before parsing). -/
def ndRanges : List (Nat × Nat) :=
  [(0x30, 0x39), (0x660, 0x669), (0x6f0, 0x6f9), (0x7c0, 0x7c9),
   (0x966, 0x96f), (0x9e6, 0x9ef), (0xa66, 0xa6f), (0xae6, 0xaef),
   (0xb66, 0xb6f), (0xbe6, 0xbef), (0xc66, 0xc6f), (0xce6, 0xcef),
   (0xd66, 0xd6f), (0xde6, 0xdef), (0xe50, 0xe59), (0xed0, 0xed9),
   (0xf20, 0xf29), (0x1040, 0x1049), (0x1090, 0x1099), (0x17e0, 0x17e9),
   (0x1810, 0x1819), (0x1946, 0x194f), (0x19d0, 0x19d9), (0x1a80, 0x1a89),
   (0x1a90, 0x1a99), (0x1b50, 0x1b59), (0x1bb0, 0x1bb9), (0x1c40, 0x1c49),
   (0x1c50, 0x1c59), (0xa620, 0xa629), (0xa8d0, 0xa8d9), (0xa900, 0xa909),
   (0xa9d0, 0xa9d9), (0xa9f0, 0xa9f9), (0xaa50, 0xaa59), (0xabf0, 0xabf9),
   (0xff10, 0xff19), (0x104a0, 0x104a9), (0x10d30, 0x10d39),
   (0x11066, 0x1106f), (0x110f0, 0x110f9), (0x11136, 0x1113f),
   (0x111d0, 0x111d9), (0x112f0, 0x112f9), (0x11450, 0x11459),
   (0x114d0, 0x114d9), (0x11650, 0x11659), (0x116c0, 0x116c9),
   (0x11730, 0x11739), (0x118e0, 0x118e9), (0x11950, 0x11959),
   (0x11c50, 0x11c59), (0x11d50, 0x11d59), (0x11da0, 0x11da9),
   (0x16a60, 0x16a69), (0x16ac0, 0x16ac9), (0x16b50, 0x16b59),
   (0x1d7ce, 0x1d7ff), (0x1e140, 0x1e149), (0x1e2f0, 0x1e2f9),
   (0x1e950, 0x1e959), (0x1fbf0, 0x1fbf9)]

/-- Is `c` a Unicode decimal digit (category Nd)? -/
def pyIsDecimalDigit (c : Char) : Bool :=
  ndRanges.any fun r => decide (r.1 ≤ c.toNat) && decide (c.toNat ≤ r.2)

/-- The whitespace `float()`'s parser strips at both ends: the C-locale
whitespace (U+0009–U+000D and the space), plus every non-ASCII Python
whitespace character, which CPython's decimal-and-space transform rewrites to
a plain space before parsing.  U+001C–U+001F are Python `str` whitespace but
are NOT stripped here: `float("\x1c1")` raises. -/
def floatIsSpace (c : Char) : Bool :=
  let n := c.toNat
  decide ((9 ≤ n ∧ n ≤ 13) ∨ n = 32) || (decide (127 < n) && pyIsSpace c)

/-- A run of digits with PEP 515 underscore grouping, as `float()` accepts
since Python 3.6: nonempty, and every underscore directly preceded and
followed by a digit.  This is the continuation after a first digit. -/
def digitRunTail : List Char → Bool
  | [] => true
  | '_' :: rest =>
      match rest with
      | [] => false
      | c :: rest' => pyIsDecimalDigit c && digitRunTail rest'
  | c :: rest => pyIsDecimalDigit c && digitRunTail rest

/-- A nonempty underscore-grouped digit run (must start with a digit). -/
def digitRun : List Char → Bool
  | [] => false
  | c :: rest => pyIsDecimalDigit c && digitRunTail rest

/-- The mantissa of a `float()` literal: a digit run, or a digit run with a
decimal point before, after or inside it (at least one digit overall, and no
underscore adjacent to the point). -/
def mantissaOk (m : List Char) : Bool :=
  match m.splitOn '.' with
  | [d] => digitRun d
  | [d1, d2] =>
      if d1.isEmpty then digitRun d2
      else if d2.isEmpty then digitRun d1
      else digitRun d1 && digitRun d2
  | _ => false

/-- The exponent of a `float()` literal: an optional sign, then a nonempty
underscore-grouped digit run. -/
def expOk : List Char → Bool
  | '+' :: ds => digitRun ds
  | '-' :: ds => digitRun ds
  | ds => digitRun ds

/-- Is `s` a string accepted by Python's `float()`?  Leading and trailing
parser whitespace (`floatIsSpace`) is stripped; then an optional sign followed
by `inf`, `infinity` or `nan` (case-insensitive), or a mantissa with an
optional exponent part `e`/`E`.  Digits may be any Unicode decimal digits and
may use PEP 515 underscore grouping. -/
def floatStrOk (s : String) : Bool :=
  let t := (((s.toList.dropWhile floatIsSpace).reverse.dropWhile
      floatIsSpace).reverse).map Char.toLower
  let body :=
    match t with
    | '+' :: rest => rest
    | '-' :: rest => rest
    | rest => rest
  body = "inf".toList || body = "infinity".toList || body = "nan".toList ||
    (match body.splitOn 'e' with
     | [m] => mantissaOk m
     | [m, ex] => mantissaOk m && expOk ex
     | _ => false)

/-- Does `float(data['temperature'])` succeed?  Numbers and booleans convert;
strings convert when `floatStrOk`; `None`, lists and dicts raise
`TypeError` (caught by the handler's `except (ValueError, TypeError)`). -/
def floatConvOk : Json → Bool
  | .num _ => true
  | .bool _ => true
  | .str s => floatStrOk s
  | .null => false
  | .arr _ => false
  | .obj _ => false

/-- Python indexing `data[k]` by a string key inside the validation `try`:
dict lookup for dicts; for lists and strings a string index raises `TypeError`
(caught as a 400); `none` stands for that `TypeError`.  (For dicts this point
is reached only after the missing-fields check, so the key is present.) -/
def getItem (data : Json) (k : String) : Option Json :=
  match data with
  | .obj kvs => objGet kvs k
  | _ => none

/-- Python dict assignment `d[k] = v`: replace in place, else append. -/
def setObj (k : String) (v : Json) : List (String × Json) →
    List (String × Json)
  | [] => [(k, v)]
  | (k', v') :: tl => if k' = k then (k', v) :: tl else (k', v') :: setObj k v tl

/-- `data['received_at'] = now` on the (dict) request body. -/
def setItem (data : Json) (k : String) (v : Json) : Json :=
  match data with
  | .obj kvs => .obj (setObj k v kvs)
  | other => other

/-- A webhook response: HTTP status plus the record appended to
`received_data`, if any. -/
structure WebhookResult where
  status : Nat
  stored : Option Json
deriving Repr

/-- The record stored on success: the request body with `received_at` set. -/
def storedRecord (data : Json) (now : String) : Json :=
  setItem data "received_at" (.str now)

/-- The Flask handler `webhook` of `test_server.py`, given the parsed JSON
body `data` and the current time `now`: empty/falsy body → 400; a `TypeError`
from the membership comprehension (body is a number or boolean) propagates to
the outer handler → 500; missing required fields → 400; then
`float(data['temperature'])` and the `device_id` non-empty-string check, whose
`ValueError`/`TypeError` → 400; otherwise the body (with `received_at` added)
is appended to `received_data` and 200 is returned. -/
def webhook (data : Json) (now : String) : WebhookResult :=
  if !truthy data then ⟨400, none⟩
  else
    match requiredMissing data ["device_id", "temperature", "timestamp"] with
    | none => ⟨500, none⟩
    | some missing =>
        if !missing.isEmpty then ⟨400, none⟩
        else
          match getItem data "temperature" with
          | none => ⟨400, none⟩
          | some tv =>
              if !floatConvOk tv then ⟨400, none⟩
              else
                match getItem data "device_id" with
                | none => ⟨400, none⟩
                | some (.str s) =>
                    if (pyStripChars s.toList).isEmpty then ⟨400, none⟩
                    else ⟨200, some (storedRecord data now)⟩
                | some _ => ⟨400, none⟩

/-- The handler's effect on the in-memory store `received_data`: the returned
status together with the new store contents. -/
def webhookUpdate (store : List Json) (data : Json) (now : String) :
    Nat × List Json :=
  let r := webhook data now
  (r.status, match r.stored with
    | some rec => store ++ [rec]
    | none => store)

/-! ## Theorems -/

-- Unfolding lemma for the classification of a completed HTTP response.
lemma attemptClass_response (s : Nat) :
    attemptClass (.response s) =
      if 400 ≤ s ∧ s < 600 then
        if s < 500 then .permanent else .retryable
      else .deliver := rfl

-- Unfolding lemma for the first iteration of the attempt loop.
lemma send_data_first (f : Nat → AttemptOutcome) (d : ℚ) (m : Nat) :
    send_data f (m + 1) d =
      (match attemptClass (f 1) with
       | .deliver => ⟨.delivered, 1, []⟩
       | .permanent => ⟨.permanentFailure, 1, []⟩
       | .retryable =>
           if m = 0 then ⟨.retryableFailure, 1, []⟩
           else
             let rest := sendAux f d 2 m
             ⟨rest.outcome, rest.calls + 1, d :: rest.sleeps⟩ : SendResult) :=
  rfl

-- Any branch of the attempt loop with at least one attempt remaining issues
-- at least one outbound call.
lemma sendAux_calls_pos (f : Nat → AttemptOutcome) (d : ℚ) (a r : Nat) :
    1 ≤ (sendAux f d a (r + 1)).calls := by
  unfold sendAux
  cases attemptClass (f a) <;> simp
  split <;> simp

-- A first attempt classified `deliver` returns Delivered at once.
lemma send_data_first_deliver (f : Nat → AttemptOutcome) (d : ℚ) (m : Nat)
    (h : attemptClass (f 1) = .deliver) :
    send_data f (m + 1) d = ⟨.delivered, 1, []⟩ := by
  rw [send_data_first, h]

-- A first attempt classified `permanent` returns PermanentFailure at once.
lemma send_data_first_permanent (f : Nat → AttemptOutcome) (d : ℚ) (m : Nat)
    (h : attemptClass (f 1) = .permanent) :
    send_data f (m + 1) d = ⟨.permanentFailure, 1, []⟩ := by
  rw [send_data_first, h]

-- A first attempt classified `retryable` never yields an immediate Delivered.
lemma send_data_first_retryable (f : Nat → AttemptOutcome) (d : ℚ) (m : Nat)
    (h : attemptClass (f 1) = .retryable) :
    send_data f (m + 1) d ≠ ⟨.delivered, 1, []⟩ := by
  rw [send_data_first, h]
  rcases Nat.eq_zero_or_pos m with hm | hm
  · subst hm
    intro heq
    simp [SendResult.mk.injEq] at heq
  · obtain ⟨k, rfl⟩ : ∃ k, m = k + 1 := ⟨m - 1, by omega⟩
    simp only [Nat.succ_ne_zero, if_false]
    intro heq
    have hc := sendAux_calls_pos f d 2 k
    simp only [SendResult.mk.injEq] at heq
    omega

-- If every attempt in the window is classified retryable, the loop exhausts
-- all of them, sleeping between consecutive attempts only.
lemma sendAux_all_retryable (f : Nat → AttemptOutcome) (d : ℚ) :
    ∀ r a, 1 ≤ r → (∀ i, a ≤ i → i < a + r → attemptClass (f i) = .retryable) →
      sendAux f d a r = ⟨.retryableFailure, r, List.replicate (r - 1) d⟩ := by
  intro r
  induction r with
  | zero => omega
  | succ r ih =>
      intro a _ hall
      unfold sendAux
      rw [hall a (le_refl a) (by omega)]
      rcases Nat.eq_zero_or_pos r with hr | hr
      · subst hr; simp
      · have hrest := ih (a + 1) hr (fun i h1 h2 => hall i (by omega) (by omega))
        simp only [Nat.pos_iff_ne_zero.mp hr, if_false, hrest]
        have : d :: List.replicate (r - 1) d = List.replicate r d := by
          conv_rhs => rw [show r = (r - 1) + 1 by omega]
          rfl
        simp [this]

/-- C1: with `max_retries ≥ 1`, a first attempt answered by an HTTP status in
[400,500) makes `send_data` return PermanentFailure immediately: exactly one
outbound call, no further attempts, no retry-delay sleep. -/
theorem C1_permanent_abort (f : Nat → AttemptOutcome) (maxRetries : Nat)
    (retryDelay : ℚ) (s : Nat) (hmr : 1 ≤ maxRetries) (h4 : 400 ≤ s)
    (h5 : s < 500) (hf : f 1 = .response s) :
    send_data f maxRetries retryDelay =
      ⟨.permanentFailure, 1, []⟩ := by
  obtain ⟨m, rfl⟩ : ∃ m, maxRetries = m + 1 :=
    ⟨maxRetries - 1, by omega⟩
  rw [send_data_first, hf, attemptClass_response,
    if_pos ⟨h4, by omega⟩, if_pos h5]

/-- Witness for C1 at `max_retries = 3`, first attempt answered 404. -/
theorem C1_permanent_abort_witness :
    send_data (fun _ => .response 404) 3 2 = ⟨.permanentFailure, 1, []⟩ :=
  C1_permanent_abort (fun _ => .response 404) 3 2 404 (by norm_num)
    (by norm_num) (by norm_num) rfl

/-- C2: with `max_retries ≥ 1`, if every attempt is classified retryable (for
example every attempt is answered 503), `send_data` returns RetryableFailure
after exactly `max_retries` outbound calls with exactly `max_retries - 1`
inter-attempt sleeps of `retry_delay` (none after the final attempt). -/
theorem C2_retry_exhaustion (f : Nat → AttemptOutcome) (maxRetries : Nat)
    (retryDelay : ℚ) (hmr : 1 ≤ maxRetries)
    (hall : ∀ i, 1 ≤ i → i ≤ maxRetries → attemptClass (f i) = .retryable) :
    send_data f maxRetries retryDelay =
      ⟨.retryableFailure, maxRetries, List.replicate (maxRetries - 1) retryDelay⟩ :=
  sendAux_all_retryable f retryDelay maxRetries 1 hmr
    (fun i h1 h2 => hall i h1 (by omega))

/-- Witness for C2 at `max_retries = 3`, every attempt answered 503: three
calls, two sleeps of the retry delay. -/
theorem C2_retry_exhaustion_witness :
    send_data (fun _ => .response 503) 3 2 = ⟨.retryableFailure, 3, [2, 2]⟩ := by
  have h := C2_retry_exhaustion (fun _ => .response 503) 3 2 (by norm_num)
    (fun i _ _ => rfl)
  simpa using h

/-- Counterexample to C3: a first attempt answered 304 — a status outside
[200,300), which the claim classifies retryable — in fact makes `send_data`
return Delivered immediately after one call (`raise_for_status` does not raise
for 3xx). -/
theorem C3_counterexample :
    ¬ (200 ≤ 304 ∧ 304 < 300) ∧
      send_data (fun _ => .response 304) 3 2 = ⟨.delivered, 1, []⟩ := by
  exact ⟨by omega, rfl⟩

/-- C3 (amended): with `max_retries ≥ 1` and the first attempt answered with
status `s`, `send_data` returns Delivered immediately (one call, no sleeps) if
and only if `s` is outside [400,600) — in particular every 2xx AND every 3xx
status Delivers; statuses in [400,500) are classified permanent and statuses
in [500,600) retryable. -/
theorem C3_delivered_iff (f : Nat → AttemptOutcome) (maxRetries : Nat)
    (retryDelay : ℚ) (s : Nat) (hmr : 1 ≤ maxRetries)
    (hf : f 1 = .response s) :
    (send_data f maxRetries retryDelay = ⟨.delivered, 1, []⟩ ↔
       (s < 400 ∨ 600 ≤ s)) ∧
    (400 ≤ s → s < 500 → attemptClass (f 1) = .permanent) ∧
    (500 ≤ s → s < 600 → attemptClass (f 1) = .retryable) := by
  obtain ⟨m, rfl⟩ : ∃ m, maxRetries = m + 1 :=
    ⟨maxRetries - 1, by omega⟩
  refine ⟨?_, ?_, ?_⟩
  · constructor
    · intro hdeliv
      by_contra hout
      push_neg at hout
      have hin : 400 ≤ s ∧ s < 600 := by omega
      by_cases h5 : s < 500
      · rw [send_data_first_permanent f retryDelay m
          (by rw [hf, attemptClass_response, if_pos hin, if_pos h5])] at hdeliv
        exact absurd hdeliv (by decide)
      · exact send_data_first_retryable f retryDelay m
          (by rw [hf, attemptClass_response, if_pos hin, if_neg h5]) hdeliv
    · intro hout
      exact send_data_first_deliver f retryDelay m
        (by rw [hf, attemptClass_response, if_neg (by omega)])
  · intro h4 h5
    rw [hf, attemptClass_response, if_pos ⟨h4, by omega⟩, if_pos h5]
  · intro h5 h6
    rw [hf, attemptClass_response, if_pos ⟨by omega, h6⟩, if_neg (by omega)]

/-- Witness for the amended C3 at status 304: Delivered after one call. -/
theorem C3_delivered_iff_witness :
    send_data (fun _ => .response 304) 3 2 = ⟨.delivered, 1, []⟩ :=
  (C3_delivered_iff (fun _ => .response 304) 3 2 304 (by norm_num) rfl).1.mpr
    (Or.inl (by norm_num))

/-- C4: in a running supervisor loop, when a non-Delivered outcome pushes the
consecutive-failure counter to `max_consecutive_failures`, the very next
action is a single cooldown sleep of the configured 30 seconds, the counter is
reset to 0 and the loop stays in Running; below the threshold a non-Delivered
outcome counts as exactly one failure (counter incremented, normal interval
sleep), and a Delivered outcome resets the counter to 0. -/
theorem C4_cooldown (interval : Nat) (s : RunState) (hrun : s.stopped = false) :
    (max_consecutive_failures ≤ s.consecutive_failures + 1 →
       iterStep interval s (.outcome false) =
         ⟨0, s.trace ++ [.sleepCooldown cooldown_seconds], false⟩) ∧
    (s.consecutive_failures + 1 < max_consecutive_failures →
       iterStep interval s (.outcome false) =
         ⟨s.consecutive_failures + 1, s.trace ++ [.sleepInterval interval],
           false⟩) ∧
    iterStep interval s (.outcome true) =
      ⟨0, s.trace ++ [.sleepInterval interval], false⟩ := by
  unfold iterStep
  rw [hrun]
  refine ⟨fun h => ?_, fun h => ?_, ?_⟩
  · simp only [Bool.false_eq_true, if_false, if_pos h]
  · simp only [Bool.false_eq_true, if_false, if_neg (not_le.mpr h)]
  · have h0 : ¬ max_consecutive_failures ≤ 0 := by
      unfold max_consecutive_failures; omega
    simp only [Bool.false_eq_true, if_false, if_true, if_neg h0]

/-- Witness for C4: with the counter at 4, a fifth consecutive failure
triggers the 30-second cooldown and resets the counter; with the counter at
0, a failure merely increments it and sleeps the interval. -/
theorem C4_cooldown_witness :
    iterStep 5 ⟨4, [], false⟩ (.outcome false) =
      ⟨0, [.sleepCooldown 30], false⟩ ∧
    iterStep 5 ⟨0, [], false⟩ (.outcome false) =
      ⟨1, [.sleepInterval 5], false⟩ ∧
    iterStep 5 ⟨3, [], false⟩ (.outcome true) =
      ⟨0, [.sleepInterval 5], false⟩ :=
  ⟨(C4_cooldown 5 ⟨4, [], false⟩ rfl).1 (by decide),
   (C4_cooldown 5 ⟨0, [], false⟩ rfl).2.1 (by decide),
   (C4_cooldown 5 ⟨3, [], false⟩ rfl).2.2⟩

/-- C6: an unhandled exception in one iteration of a running supervisor loop
is caught: the loop sleeps the fixed 10-second backoff — a strictly smaller
constant than the 30-second cooldown — and remains in Running; the iteration
never stops the loop. -/
theorem C6_transient_backoff (interval : Nat) (s : RunState)
    (hrun : s.stopped = false) :
    iterStep interval s .exc =
      { s with trace := s.trace ++ [.sleepBackoff error_backoff_seconds] } ∧
    (iterStep interval s .exc).stopped = false ∧
    error_backoff_seconds < cooldown_seconds := by
  unfold iterStep
  rw [hrun]
  refine ⟨rfl, ?_, by unfold error_backoff_seconds cooldown_seconds; omega⟩
  simp [hrun]

/-- Witness for C6 at a concrete running state. -/
theorem C6_transient_backoff_witness :
    iterStep 5 ⟨2, [], false⟩ .exc = ⟨2, [.sleepBackoff 10], false⟩ ∧
    10 < 30 :=
  ⟨(C6_transient_backoff 5 ⟨2, [], false⟩ rfl).1,
   (C6_transient_backoff 5 ⟨2, [], false⟩ rfl).2.2⟩

-- The session-close invariant of the supervisor loop: the trace holds one
-- `closeSession` when the loop has stopped and none while it is running.
lemma iterStep_close_invariant (interval : Nat) :
    ∀ (events : List IterEvent) (s : RunState),
      s.trace.count Action.closeSession = (if s.stopped then 1 else 0) →
      (events.foldl (iterStep interval) s).trace.count Action.closeSession =
        (if (events.foldl (iterStep interval) s).stopped then 1 else 0) := by
  intro events
  induction events with
  | nil => intro s h; exact h
  | cons ev tl ih =>
      intro s h
      refine ih (iterStep interval s ev) ?_
      unfold iterStep
      by_cases hs : s.stopped
      · rw [if_pos hs]; exact h
      · rw [if_neg hs]
        rw [if_neg hs] at h
        cases ev with
        | outcome ok =>
            dsimp only
            split <;> split <;> simp [List.count_append, h]
        | interrupted => dsimp only; simp [List.count_append, h]
        | exc => dsimp only; simp [List.count_append, h, hs]
        | fatal => dsimp only; simp [List.count_append, h]

/-- C7: for every sequence of supervisor-loop iterations, the outbound session
is closed exactly once when the loop has exited (by cancellation or fatal
error) and never while the loop is still Running or cooling down: the action
trace of `run` holds exactly one `closeSession` when stopped and none
otherwise. -/
theorem C7_session_closed_once (interval : Nat) (events : List IterEvent) :
    (run interval events).trace.count Action.closeSession =
      (if (run interval events).stopped then 1 else 0) :=
  iterStep_close_invariant interval events ⟨0, [], false⟩ rfl

/-- C10: an iteration that ends through the unexpected-exception path leaves
the consecutive-failure counter exactly as it was: it neither counts as a
failure toward the cooldown threshold nor resets the counter. -/
theorem C10_exc_preserves_counter (interval : Nat) (s : RunState) :
    (iterStep interval s .exc).consecutive_failures =
      s.consecutive_failures := by
  unfold iterStep
  by_cases hs : s.stopped
  · rw [if_pos hs]
  · rw [if_neg hs]

-- The half-to-even rounding never moves a value by more than 1/2 downward.
lemma le_rhe (y : ℚ) : y - 1/2 ≤ (rhe y : ℚ) := by
  unfold rhe
  have hf1 : (⌊y⌋ : ℚ) ≤ y := Int.floor_le y
  have hf2 : y < ⌊y⌋ + 1 := Int.lt_floor_add_one y
  split_ifs with h1 h2 h3 <;> push_cast <;> linarith

-- The half-to-even rounding never moves a value by more than 1/2 upward.
lemma rhe_le (y : ℚ) : (rhe y : ℚ) ≤ y + 1/2 := by
  unfold rhe
  have hf1 : (⌊y⌋ : ℚ) ≤ y := Int.floor_le y
  have hf2 : y < ⌊y⌋ + 1 := Int.lt_floor_add_one y
  split_ifs with h1 h2 h3 <;> push_cast <;> linarith

-- An integer lower bound survives the rounding.
lemma rhe_ge_int (z : ℤ) (y : ℚ) (h : (z : ℚ) ≤ y) : z ≤ rhe y := by
  have h1 := le_rhe y
  have h2 : (z : ℚ) - 1 < (rhe y : ℚ) := by linarith
  have h3 : z - 1 < rhe y := by exact_mod_cast h2
  omega

-- An integer upper bound survives the rounding.
lemma rhe_le_int (z : ℤ) (y : ℚ) (h : y ≤ (z : ℚ)) : rhe y ≤ z := by
  have h1 := rhe_le y
  have h2 : (rhe y : ℚ) < (z : ℚ) + 1 := by linarith
  have h3 : rhe y < z + 1 := by exact_mod_cast h2
  omega

-- Rounding an integer returns it unchanged.
lemma rhe_intCast (z : ℤ) : rhe (z : ℚ) = z := by
  unfold rhe
  rw [Int.floor_intCast]
  rw [if_pos]
  simp

-- `round2` is idempotent: a value already rounded to 2 decimals is fixed.
lemma round2_round2 (x : ℚ) : round2 (round2 x) = round2 x := by
  unfold round2
  have h : (100 : ℚ) * ((rhe (100 * x) : ℚ) / 100) = (rhe (100 * x) : ℚ) := by
    ring
  rw [h, rhe_intCast]

-- The uniform draw stays inside the configured bounds.
lemma uniform_mem (a b r : ℚ) (hab : a ≤ b) (hr0 : 0 ≤ r) (hr1 : r < 1) :
    a ≤ uniform a b r ∧ uniform a b r ≤ b := by
  unfold uniform
  constructor
  · nlinarith
  · nlinarith

/-- Counterexample to C5: with bounds `min = max = 1.006` (so `min ≤ max`) and
random draw 0, the generated value is `round(1.006, 2) = 1.01`, which exceeds
`max` — the claimed `min ≤ value ≤ max` fails. -/
theorem C5_counterexample :
    (503/500 : ℚ) ≤ 503/500 ∧ (0 : ℚ) ≤ 0 ∧ (0 : ℚ) < 1 ∧
    ¬ (generate_temperature_data "device" (503/500) (503/500) 0 "now").temperature
        ≤ 503/500 := by
  refine ⟨le_refl _, le_refl _, by norm_num, ?_⟩
  norm_num [generate_temperature_data, round2, rhe, uniform]

/-- C5 (amended): for all bounds with `min ≤ max` that are themselves exact
multiples of 0.01 (as the shipped defaults 20.0 and 30.0 are), every reading
produced by `generate_temperature_data` from a random draw `r ∈ [0,1)` has a
value with `min ≤ value ≤ max`, and the value equals its own rounding to 2
decimal digits.  (For general bounds the rounding can leave the interval by up
to 0.005, as the counterexample shows.) -/
theorem C5_bounds_rounded (deviceId now : String) (mn mx r : ℚ) (a b : ℤ)
    (ha : mn * 100 = (a : ℚ)) (hb : mx * 100 = (b : ℚ)) (hle : mn ≤ mx)
    (hr0 : 0 ≤ r) (hr1 : r < 1) :
    mn ≤ (generate_temperature_data deviceId mn mx r now).temperature ∧
    (generate_temperature_data deviceId mn mx r now).temperature ≤ mx ∧
    round2 (generate_temperature_data deviceId mn mx r now).temperature =
      (generate_temperature_data deviceId mn mx r now).temperature := by
  have hmem := uniform_mem mn mx r hle hr0 hr1
  set x := uniform mn mx r with hx
  have hlo : (a : ℚ) ≤ 100 * x := by
    rw [← ha]; nlinarith [hmem.1]
  have hhi : 100 * x ≤ (b : ℚ) := by
    rw [← hb]; nlinarith [hmem.2]
  have h1 : a ≤ rhe (100 * x) := rhe_ge_int a (100 * x) hlo
  have h2 : rhe (100 * x) ≤ b := rhe_le_int b (100 * x) hhi
  have h1' : (a : ℚ) ≤ (rhe (100 * x) : ℚ) := by exact_mod_cast h1
  have h2' : (rhe (100 * x) : ℚ) ≤ (b : ℚ) := by exact_mod_cast h2
  have hval : (generate_temperature_data deviceId mn mx r now).temperature =
      (rhe (100 * x) : ℚ) / 100 := rfl
  refine ⟨?_, ?_, ?_⟩
  · rw [hval]; nlinarith
  · rw [hval]; nlinarith
  · rw [hval]
    have := round2_round2 x
    unfold round2 at this ⊢
    exact this

/-- Witness for the amended C5 at the shipped defaults `min = 20`, `max = 30`
and random draw 1/2: the value 25 lies in bounds and is 2-decimal stable. -/
theorem C5_bounds_rounded_witness :
    (20 : ℚ) ≤ (generate_temperature_data "device" 20 30 (1/2) "now").temperature ∧
    (generate_temperature_data "device" 20 30 (1/2) "now").temperature ≤ 30 ∧
    round2 (generate_temperature_data "device" 20 30 (1/2) "now").temperature =
      (generate_temperature_data "device" 20 30 (1/2) "now").temperature :=
  C5_bounds_rounded "device" "now" 20 30 (1/2) 2000 3000 (by norm_num)
    (by norm_num) (by norm_num) (by norm_num) (by norm_num)

-- Every control path of the webhook handler returns 400 or 500 with no
-- record stored, or 200 with the received record stored.
lemma webhook_cases (data : Json) (now : String) :
    webhook data now = ⟨400, none⟩ ∨ webhook data now = ⟨500, none⟩ ∨
      webhook data now = ⟨200, some (storedRecord data now)⟩ := by
  unfold webhook
  repeat' split
  all_goals first
    | exact Or.inl rfl
    | exact Or.inr (Or.inl rfl)
    | exact Or.inr (Or.inr rfl)

/-- C9: the webhook handler mutates the store atomically with its status: the
new store is the old store with the received record appended exactly when the
response status is 200, and on every non-200 (error) response the store is
unchanged. -/
theorem C9_store_append_iff (data : Json) (now : String) (store : List Json) :
    ((webhookUpdate store data now).1 = 200 →
       (webhookUpdate store data now).2 = store ++ [storedRecord data now]) ∧
    ((webhookUpdate store data now).1 ≠ 200 →
       (webhookUpdate store data now).2 = store) := by
  rcases webhook_cases data now with h | h | h <;> unfold webhookUpdate <;> rw [h]
  · refine ⟨fun h200 => ?_, fun _ => rfl⟩
    exact absurd h200 (by norm_num)
  · refine ⟨fun h200 => ?_, fun _ => rfl⟩
    exact absurd h200 (by norm_num)
  · refine ⟨fun _ => rfl, fun hne => absurd rfl hne⟩

/-- Witness for C9: a valid body is appended to the empty store (status 200);
a numeric body (status 500) leaves the store unchanged. -/
theorem C9_store_append_iff_witness :
    (webhookUpdate [] (.obj [("device_id", .str "dev1"),
        ("temperature", .num 21), ("timestamp", .str "ts")]) "now").2 =
      [] ++ [storedRecord (.obj [("device_id", .str "dev1"),
        ("temperature", .num 21), ("timestamp", .str "ts")]) "now"] ∧
    (webhookUpdate [] (.num 5) "now").2 = [] :=
  ⟨(C9_store_append_iff (.obj [("device_id", .str "dev1"),
      ("temperature", .num 21), ("timestamp", .str "ts")]) "now" []).1 rfl,
   (C9_store_append_iff (.num 5) "now" []).2 (by decide)⟩

end IoT
